import Mathlib

/-!
Verification of the DHT11 temperature/humidity monitor firmware
(`src/main.cpp`): a shallow embedding of its `setup` and `loop`
functions as event traces over an explicit display state, together
with proofs of the specified properties.

A sensor reading is modelled as `Option ℚ`: `none` is the NaN
invalid marker returned by the DHT driver, `some x` a valid reading.
The Adafruit display object is modelled by `DisplayState` (text
frame buffer, cursor, text size, text color, and the contents of the
physical screen after the last flush).  Each driver call the firmware
makes is an `Event`; `setupTrace` and `cycleTrace` are the exact
sequences of calls `setup()` and one iteration of `loop()` perform,
and `step` interprets the display-related events.
-/

namespace DHT11Monitor

/-- SSD1306 `WHITE` color constant (`SSD1306_WHITE = 1`). -/
def WHITE : Nat := 1

/-- One externally visible action of the firmware: a serial, delay,
sensor-driver or display-driver call, in source order. -/
inductive Event where
  | serialBegin (baud : Nat)
  | serialPrintln (s : String)
  | dhtBegin
  | displayBegin
  | delayMs (n : Nat)
  | readTemp
  | readHum
  | clearDisplay
  | setTextSize (n : Nat)
  | setTextColor (c : Nat)
  | setCursor (x y : Int)
  | printText (s : String)
  | printlnText (s : String)
  | flushDisplay
  deriving DecidableEq

/-- The digits printed after the decimal point by Arduino
`Print::printFloat`: repeatedly multiply the remainder by 10 and
truncate, `digits` times. -/
def fracDigits : ℚ → Nat → String
  | _, 0 => ""
  | r, d + 1 =>
    let t := (Rat.floor (r * 10)).toNat
    toString t ++ fracDigits (r * 10 - t) d

/-- Arduino `Print::printFloat number digits`, the default
numeric-to-text conversion used by `display.print(float)`
(the firmware calls it with `digits = 2`): overflow guard, sign,
round by adding `0.5 / 10 ^ digits`, integer part, then the
fractional digits.  The NaN case is handled by the caller, which
only prints valid readings. -/
def printFloat (number : ℚ) (digits : Nat) : String :=
  if number > 4294967040 then "ovf"
  else if number < -4294967040 then "ovf"
  else
    let sign := if number < 0 then "-" else ""
    let x := (if number < 0 then -number else number) + (1 / 2) / 10 ^ digits
    let ip := (Rat.floor x).toNat
    sign ++ toString ip ++ (if digits > 0 then "." else "") ++ fracDigits (x - ip) digits

/-- The state of the Adafruit_SSD1306 object: the text content of the
in-memory frame buffer (`buffer` = completed lines, `cur` = the line
being built by `print` calls), cursor position, text size and color,
and the lines visible on the physical screen after the last
`display()` flush. -/
structure DisplayState where
  buffer : List String
  cur : String
  cursorX : Int
  cursorY : Int
  textSize : Nat
  textColor : Nat
  screen : List String
  deriving DecidableEq

/-- Interpretation of one event on the display state.  Non-display
events (serial, delay, sensor reads) leave the state unchanged. -/
def step (d : DisplayState) : Event → DisplayState
  | .clearDisplay => { d with buffer := [], cur := "" }
  | .setTextSize n => { d with textSize := n }
  | .setTextColor c => { d with textColor := c }
  | .setCursor x y => { d with cursorX := x, cursorY := y }
  | .printText s => { d with cur := d.cur ++ s }
  | .printlnText s => { d with buffer := d.buffer ++ [d.cur ++ s], cur := "" }
  | .flushDisplay => { d with screen := d.buffer ++ (if d.cur = "" then [] else [d.cur]) }
  | _ => d

/-- Run a list of events from a display state. -/
def runEvents (d : DisplayState) (es : List Event) : DisplayState :=
  es.foldl step d

/-- The exact sequence of calls made by `setup()` in `src/main.cpp`,
as a function of whether `display.begin(SSD1306_SWITCHCAPVCC, 0x3C)`
succeeds.  On failure the firmware prints the diagnostic and enters
`while (1);`, so no further event ever occurs. -/
def setupTrace (initOk : Bool) : List Event :=
  [Event.serialBegin 9600, Event.dhtBegin, Event.displayBegin] ++
    if initOk then
      [Event.clearDisplay, Event.setTextSize 1, Event.setTextColor WHITE,
       Event.setCursor 0 0, Event.printlnText "DHT11 Sensor",
       Event.flushDisplay, Event.delayMs 2000]
    else
      [Event.serialPrintln "OLED not found"]

/-- The exact sequence of calls made by one iteration of `loop()` in
`src/main.cpp`, as a function of the two readings the DHT driver
returns in that iteration (`none` models a NaN reading, so the
`isnan(temp) || isnan(hum)` branch is taken iff either is `none`). -/
def cycleTrace (temp hum : Option ℚ) : List Event :=
  [Event.delayMs 2000, Event.readTemp, Event.readHum,
   Event.clearDisplay, Event.setTextSize 1, Event.setCursor 0 0] ++
    match temp, hum with
    | some t, some h =>
      [Event.printlnText "DHT11 Reading",
       Event.printlnText "----------------",
       Event.printText "Temp: ", Event.printText (printFloat t 2),
       Event.printlnText " C",
       Event.printText "Humidity: ", Event.printText (printFloat h 2),
       Event.printlnText " %",
       Event.flushDisplay]
    | _, _ =>
      [Event.printlnText "Sensor Error!", Event.flushDisplay]

/-- One `loop()` iteration applied to a display state. -/
def runCycle (d : DisplayState) (temp hum : Option ℚ) : DisplayState :=
  runEvents d (cycleTrace temp hum)

/-- The full event trace of a run of the firmware: `setup`, then `n`
iterations of `loop` fed by the sensor outputs `readings`.  When
display initialization fails, `setup` never returns (`while (1);`),
so the trace is the failed setup trace alone, whatever `n` is. -/
def systemTrace (initOk : Bool) (readings : Nat → Option ℚ × Option ℚ) (n : Nat) :
    List Event :=
  setupTrace initOk ++
    if initOk then
      ((List.range n).map fun i => cycleTrace (readings i).1 (readings i).2).flatten
    else
      []

/-- A concrete display state (blank buffer and screen, origin cursor,
size 1, white), used to instantiate universally quantified results. -/
def d0 : DisplayState :=
  { buffer := [], cur := "", cursorX := 0, cursorY := 0,
    textSize := 1, textColor := WHITE, screen := [] }

/-- Is the event a sensor read? -/
def isRead : Event → Bool
  | .readTemp => true
  | .readHum => true
  | _ => false

/-- Is the event a delay? -/
def isDelay : Event → Bool
  | .delayMs _ => true
  | _ => false

/-- Is the event a buffer flush (`display.display()`)? -/
def isFlush : Event → Bool
  | .flushDisplay => true
  | _ => false

/-- Is the event a `setTextColor` call? -/
def isSetColor : Event → Bool
  | .setTextColor _ => true
  | _ => false

/-- Is the event a draw into the frame buffer (`print`/`println`)? -/
def isDraw : Event → Bool
  | .printText _ => true
  | .printlnText _ => true
  | _ => false

/-- The frame a single cycle leaves on the physical screen, as a
function of that cycle's two readings only. -/
def renderedFrame (temp hum : Option ℚ) : List String :=
  match temp, hum with
  | some t, some h =>
    ["DHT11 Reading", "----------------",
     "Temp: " ++ printFloat t 2 ++ " C",
     "Humidity: " ++ printFloat h 2 ++ " %"]
  | _, _ => ["Sensor Error!"]

theorem strAppendAssoc (a b c : String) : a ++ b ++ c = a ++ (b ++ c) := by
  cases a with | mk la =>
  cases b with | mk lb =>
  cases c with | mk lc =>
  show String.mk (la ++ lb ++ lc) = String.mk (la ++ (lb ++ lc))
  rw [List.append_assoc]

set_option maxRecDepth 4000

theorem runCycle_screen (d : DisplayState) (temp hum : Option ℚ) :
    (runCycle d temp hum).screen = renderedFrame temp hum := by
  cases temp with
  | none => cases hum <;> rfl
  | some t =>
    cases hum with
    | none => rfl
    | some h =>
      have h1 : (runCycle d (some t) (some h)).screen =
          ["DHT11 Reading", "----------------",
           ("Temp: " ++ printFloat t 2) ++ " C",
           ("Humidity: " ++ printFloat h 2) ++ " %"] := rfl
      rw [h1, strAppendAssoc, strAppendAssoc]
      rfl

theorem errorCycleTrace (temp hum : Option ℚ) (hbad : temp = none ∨ hum = none) :
    cycleTrace temp hum =
      [Event.delayMs 2000, Event.readTemp, Event.readHum,
       Event.clearDisplay, Event.setTextSize 1, Event.setCursor 0 0,
       Event.printlnText "Sensor Error!", Event.flushDisplay] := by
  rcases hbad with h | h
  · subst h; cases hum <;> rfl
  · subst h; cases temp <;> rfl

theorem runEvents_append (d : DisplayState) (a b : List Event) :
    runEvents d (a ++ b) = runEvents (runEvents d a) b := by
  simp [runEvents]

theorem runCycle_textColor (d : DisplayState) (temp hum : Option ℚ) :
    (runCycle d temp hum).textColor = d.textColor := by
  cases temp <;> cases hum <;> rfl

theorem systemRun_textColor (d : DisplayState)
    (readings : Nat → Option ℚ × Option ℚ) (n : Nat) :
    (runEvents d (systemTrace true readings n)).textColor = WHITE := by
  induction n with
  | zero => rfl
  | succ k ih =>
    have hsplit : systemTrace true readings (k + 1) =
        systemTrace true readings k ++ cycleTrace (readings k).1 (readings k).2 := by
      simp [systemTrace, List.range_succ]
    rw [hsplit, runEvents_append]
    exact (runCycle_textColor _ _ _).trans ih

/-- C1: For every valid (non-NaN) temperature and humidity pair returned by
the sensor driver in a cycle, the frame rendered by that cycle contains both
values formatted as decimal text, the temperature preceded by the label
"Temp: " and followed by the unit " C", the humidity preceded by the label
"Humidity: " and followed by the unit " %", with the temperature line (index
2 of the frame) drawn before the humidity line (index 3). -/
theorem C1_valid_pair_frame (d : DisplayState) (t h : ℚ) :
    (runCycle d (some t) (some h)).screen =
      ["DHT11 Reading", "----------------",
       "Temp: " ++ printFloat t 2 ++ " C",
       "Humidity: " ++ printFloat h 2 ++ " %"] ∧
    (runCycle d (some t) (some h)).screen[2]? =
      some ("Temp: " ++ printFloat t 2 ++ " C") ∧
    (runCycle d (some t) (some h)).screen[3]? =
      some ("Humidity: " ++ printFloat h 2 ++ " %") := by
  refine ⟨runCycle_screen d (some t) (some h), ?_, ?_⟩ <;>
    rw [runCycle_screen] <;> rfl

/-- C2: Whenever either reading is the NaN invalid marker, the frame rendered
and flushed by that cycle is exactly "Sensor Error!" and nothing else,
regardless of the other channel's value, and the cycle draws neither the
header nor the reading lines ("Sensor Error!" is the only text drawn). -/
theorem C2_error_frame (d : DisplayState) (temp hum : Option ℚ)
    (hbad : temp = none ∨ hum = none) :
    (runCycle d temp hum).screen = ["Sensor Error!"] ∧
    (∀ s, Event.printlnText s ∈ cycleTrace temp hum → s = "Sensor Error!") ∧
    (∀ s, Event.printText s ∉ cycleTrace temp hum) := by
  have ht := errorCycleTrace temp hum hbad
  refine ⟨?_, ?_, ?_⟩
  · rw [runCycle_screen]
    rcases hbad with hb | hb
    · subst hb; rfl
    · subst hb; cases temp <;> rfl
  · intro s hs
    rw [ht] at hs
    simpa using hs
  · intro s hs
    rw [ht] at hs
    simp at hs

/-- Witness for C2: sensor returns NaN temperature and valid 41.0 humidity;
the rendered frame is exactly "Sensor Error!". -/
theorem C2_error_frame_witness :
    ((none : Option ℚ) = none ∨ (some (41 : ℚ)) = none) ∧
    (runCycle d0 none (some 41)).screen = ["Sensor Error!"] :=
  ⟨Or.inl rfl, (C2_error_frame d0 none (some 41) (Or.inl rfl)).1⟩

/-- C3: If display initialization fails at boot, the whole run of the system
writes "OLED not found" to the serial diagnostic channel exactly once and
then halts: however many loop iterations one asks for, the trace contains no
sensor read, no display draw or flush, and no other output of any kind. -/
theorem C3_init_failure_halts (readings : Nat → Option ℚ × Option ℚ) (n : Nat) :
    systemTrace false readings n =
      [Event.serialBegin 9600, Event.dhtBegin, Event.displayBegin,
       Event.serialPrintln "OLED not found"] ∧
    (systemTrace false readings n).count (Event.serialPrintln "OLED not found") = 1 ∧
    Event.readTemp ∉ systemTrace false readings n ∧
    Event.readHum ∉ systemTrace false readings n ∧
    Event.flushDisplay ∉ systemTrace false readings n ∧
    (∀ s, Event.printText s ∉ systemTrace false readings n) ∧
    (∀ s, Event.printlnText s ∉ systemTrace false readings n) := by
  have h : systemTrace false readings n =
      [Event.serialBegin 9600, Event.dhtBegin, Event.displayBegin,
       Event.serialPrintln "OLED not found"] := by
    simp [systemTrace, setupTrace]
  refine ⟨h, ?_, ?_, ?_, ?_, ?_, ?_⟩
  · rw [h]; rfl
  · rw [h]; decide
  · rw [h]; decide
  · rw [h]; decide
  · intro s hs; rw [h] at hs; simp at hs
  · intro s hs; rw [h] at hs; simp at hs

/-- C4: Every cycle starts with the fixed 2000 ms delay, then the two sensor
reads: the first three events of every cycle trace are the delay, the
temperature read and the humidity read; the cycle performs exactly two reads
and exactly one delay, and no read or delay occurs after the third event, so
the delay always separates successive read attempts. -/
theorem C4_delay_before_reads (temp hum : Option ℚ) :
    (cycleTrace temp hum).take 3 =
      [Event.delayMs 2000, Event.readTemp, Event.readHum] ∧
    (cycleTrace temp hum).countP (fun e => isRead e) = 2 ∧
    (cycleTrace temp hum).countP (fun e => isDelay e) = 1 ∧
    ((cycleTrace temp hum).drop 3).countP (fun e => isRead e || isDelay e) = 0 := by
  cases temp <;> cases hum <;> exact ⟨rfl, rfl, rfl, rfl⟩

theorem ratFloor_eq (q : ℚ) : Rat.floor q = ⌊q⌋ := by
  rw [Rat.floor_def', Rat.floor_def]

theorem ratFloor_eval (q : ℚ) (z : ℤ) (h1 : (z : ℚ) ≤ q) (h2 : q < z + 1) :
    Rat.floor q = z := by
  rw [ratFloor_eq, Int.floor_eq_iff]
  exact ⟨h1, h2⟩

theorem printFloat_23half : printFloat (23.5 : ℚ) 2 = "23.50" := by
  rw [printFloat]
  rw [if_neg (by norm_num : ¬ ((23.5 : ℚ) > 4294967040))]
  rw [if_neg (by norm_num : ¬ ((23.5 : ℚ) < -4294967040))]
  simp only [if_neg (by norm_num : ¬ ((23.5 : ℚ) < 0))]
  rw [show (23.5 : ℚ) + 1 / 2 / 10 ^ 2 = 4701 / 200 from by norm_num]
  rw [ratFloor_eval (4701 / 200) 23 (by norm_num) (by norm_num)]
  rw [show ((23 : ℤ).toNat) = 23 from rfl]
  rw [show (4701 / 200 : ℚ) - (23 : ℕ) = 101 / 200 from by norm_num]
  rw [fracDigits]
  rw [show (101 / 200 : ℚ) * 10 = 101 / 20 from by norm_num]
  rw [ratFloor_eval (101 / 20) 5 (by norm_num) (by norm_num)]
  rw [show ((5 : ℤ).toNat) = 5 from rfl]
  rw [show (101 / 20 : ℚ) - (5 : ℕ) = 1 / 20 from by norm_num]
  rw [fracDigits]
  rw [show (1 / 20 : ℚ) * 10 = 1 / 2 from by norm_num]
  rw [ratFloor_eval (1 / 2) 0 (by norm_num) (by norm_num)]
  rw [show ((0 : ℤ).toNat) = 0 from rfl]
  rw [fracDigits]
  rfl

theorem printFloat_41 : printFloat (41 : ℚ) 2 = "41.00" := by
  rw [printFloat]
  rw [if_neg (by norm_num : ¬ ((41 : ℚ) > 4294967040))]
  rw [if_neg (by norm_num : ¬ ((41 : ℚ) < -4294967040))]
  simp only [if_neg (by norm_num : ¬ ((41 : ℚ) < 0))]
  rw [show (41 : ℚ) + 1 / 2 / 10 ^ 2 = 8201 / 200 from by norm_num]
  rw [ratFloor_eval (8201 / 200) 41 (by norm_num) (by norm_num)]
  rw [show ((41 : ℤ).toNat) = 41 from rfl]
  rw [show (8201 / 200 : ℚ) - (41 : ℕ) = 1 / 200 from by norm_num]
  rw [fracDigits]
  rw [show (1 / 200 : ℚ) * 10 = 1 / 20 from by norm_num]
  rw [ratFloor_eval (1 / 20) 0 (by norm_num) (by norm_num)]
  rw [show ((0 : ℤ).toNat) = 0 from rfl]
  rw [show (1 / 20 : ℚ) - (0 : ℕ) = 1 / 20 from by norm_num]
  rw [fracDigits]
  rw [show (1 / 20 : ℚ) * 10 = 1 / 2 from by norm_num]
  rw [ratFloor_eval (1 / 2) 0 (by norm_num) (by norm_num)]
  rw [show ((0 : ℤ).toNat) = 0 from rfl]
  rw [fracDigits]
  rfl

/-- C5: For the sensor output temperature = 23.5, humidity = 41.0, the
rendered frame is the header "DHT11 Reading", the separator, "Temp: 23.50 C"
and "Humidity: 41.00 %", in that order: the default two-decimal conversion
renders these values with exactly two decimal places. -/
theorem C5_scenario_frame (d : DisplayState) :
    (runCycle d (some (23.5 : ℚ)) (some (41 : ℚ))).screen =
      ["DHT11 Reading", "----------------", "Temp: 23.50 C", "Humidity: 41.00 %"] := by
  rw [runCycle_screen]
  show ["DHT11 Reading", "----------------",
        "Temp: " ++ printFloat (23.5 : ℚ) 2 ++ " C",
        "Humidity: " ++ printFloat (41 : ℚ) 2 ++ " %"] = _
  rw [printFloat_23half, printFloat_41]
  rfl

/-- C6: On successful display initialization, `setup` renders the fixed
splash message "DHT11 Sensor", flushes it to the display, and holds it for a
fixed 2000 ms delay before the sampling cycle begins: the setup trace ends
with the splash draw, the flush and the delay, in that order, and running it
leaves exactly the splash line on the screen. -/
theorem C6_splash (d : DisplayState) :
    setupTrace true =
      [Event.serialBegin 9600, Event.dhtBegin, Event.displayBegin,
       Event.clearDisplay, Event.setTextSize 1, Event.setTextColor WHITE,
       Event.setCursor 0 0, Event.printlnText "DHT11 Sensor",
       Event.flushDisplay, Event.delayMs 2000] ∧
    (runEvents d (setupTrace true)).screen = ["DHT11 Sensor"] :=
  ⟨rfl, rfl⟩

/-- C7: A bad sensor sample is non-fatal and user-visible for exactly one
cycle: the error cycle shows "Sensor Error!", performs exactly its two read
attempts (no retry), leaves the text color untouched, and whatever the next
cycle's readings are, the frame the next cycle renders is the same as the
frame any other cycle with those readings renders from any state — the next
scheduled cycle is an independent, unconditional retry. -/
theorem C7_transient_error (d e : DisplayState) (temp hum t2 h2 : Option ℚ)
    (hbad : temp = none ∨ hum = none) :
    (runCycle d temp hum).screen = ["Sensor Error!"] ∧
    (cycleTrace temp hum).countP (fun x => isRead x) = 2 ∧
    (runCycle d temp hum).textColor = d.textColor ∧
    (runCycle (runCycle d temp hum) t2 h2).screen = (runCycle e t2 h2).screen := by
  refine ⟨?_, ?_, runCycle_textColor d temp hum, ?_⟩
  · rw [runCycle_screen]
    rcases hbad with hb | hb
    · subst hb; rfl
    · subst hb; cases temp <;> rfl
  · rw [errorCycleTrace temp hum hbad]; rfl
  · rw [runCycle_screen, runCycle_screen]

/-- Witness for C7: an error cycle (NaN temperature, 41.0 humidity) from the
concrete state `d0`, followed by a valid cycle. -/
theorem C7_transient_error_witness :
    ((none : Option ℚ) = none ∨ (some (41 : ℚ)) = none) ∧
    (runCycle d0 none (some 41)).screen = ["Sensor Error!"] ∧
    (runCycle (runCycle d0 none (some 41)) (some 23.5) (some 41)).screen =
      (runCycle d0 (some 23.5) (some 41)).screen :=
  ⟨Or.inl rfl,
   (C7_transient_error d0 d0 none (some 41) (some 23.5) (some 41) (Or.inl rfl)).1,
   (C7_transient_error d0 d0 none (some 41) (some 23.5) (some 41) (Or.inl rfl)).2.2.2⟩

/-- C8: Every cycle clears the frame buffer, resets the text size and resets
the cursor to the top-left before any drawing (events 4–6 of the trace, with
no draw among the first six events); consequently the frame rendered by a
cycle depends only on that cycle's readings: two cycles given equal readings
render equal frames from any two starting states. -/
theorem C8_frame_depends_only_on_readings (d1 d2 : DisplayState) (temp hum : Option ℚ) :
    (cycleTrace temp hum).take 6 =
      [Event.delayMs 2000, Event.readTemp, Event.readHum,
       Event.clearDisplay, Event.setTextSize 1, Event.setCursor 0 0] ∧
    ((cycleTrace temp hum).take 6).countP (fun x => isDraw x) = 0 ∧
    (runCycle d1 temp hum).screen = (runCycle d2 temp hum).screen := by
  refine ⟨?_, ?_, ?_⟩
  · cases temp <;> cases hum <;> rfl
  · cases temp <;> cases hum <;> rfl
  · rw [runCycle_screen, runCycle_screen]

/-- C9: The text color is set exactly once, to WHITE, during `setup`, and no
cycle of the loop ever changes it: the setup trace contains exactly one
`setTextColor` (with argument WHITE), a cycle trace contains none, a cycle
preserves the color, and after `setup` plus any number of cycles the color
is still WHITE. -/
theorem C9_textColor_invariant (d : DisplayState) (temp hum : Option ℚ)
    (readings : Nat → Option ℚ × Option ℚ) (n : Nat) :
    (setupTrace true).countP (fun x => isSetColor x) = 1 ∧
    Event.setTextColor WHITE ∈ setupTrace true ∧
    (cycleTrace temp hum).countP (fun x => isSetColor x) = 0 ∧
    (runCycle d temp hum).textColor = d.textColor ∧
    (runEvents d (systemTrace true readings n)).textColor = WHITE := by
  refine ⟨rfl, by decide, ?_, runCycle_textColor d temp hum,
    systemRun_textColor d readings n⟩
  cases temp <;> cases hum <;> rfl

/-- C10: Every cycle flushes the frame buffer to the physical display
exactly once, and the flush is the last thing the cycle does — no cycle ends
with drawn-but-unflushed content and no cycle flushes twice. -/
theorem C10_flush_exactly_once (temp hum : Option ℚ) :
    (cycleTrace temp hum).countP (fun x => isFlush x) = 1 ∧
    (cycleTrace temp hum).getLast? = some Event.flushDisplay := by
  cases temp <;> cases hum <;> exact ⟨rfl, rfl⟩

end DHT11Monitor
